import Mathlib

/-!
Shallow embedding of `src/code_parser.py` (repository Motila148/AI_code_reviewer).

The repository provides one class, `CodeParser`, which validates an input
value, attempts a parse via the Python standard library function `ast.parse`,
turns every failure into a structured diagnostic dictionary, and assembles a
result dictionary.

Modelling choices:
* Python dictionaries with fixed keys become Lean structures
  (`Diagnostic`, `ParseResult`), and the instance state becomes the
  structure `CodeParser`.
* The external library call `ast.parse` is modelled by an oracle
  `PyParser : String → ParseAttempt`: it either returns a tree, raises a
  `SyntaxError` (carrying optional `lineno`, optional `offset` and a
  message, as the Python exception object does), or raises some other
  exception whose textual description is a string.
* The two `time.time()` readings taken by `parse` become explicit rational
  parameters `t0` (start) and `t1` (end).
* An arbitrary Python input value is modelled by `PyVal`: either a string
  or a non-string value (carrying its textual rendering, which the code
  never inspects).
* Methods that mutate `self` take and return the state explicitly.
-/

/-- Opaque handle standing for a Python `ast.AST` syntax-tree object. -/
structure AST where
  id : Nat
deriving DecidableEq

/-- The data carried by a Python `SyntaxError` exception object:
`lineno` and `offset` are `int` or `None`, `msg` is a string. -/
structure SyntaxErrorExc where
  lineno : Option Int
  offset : Option Int
  msg : String
deriving DecidableEq

/-- The three ways the external call `ast.parse(code)` can end:
return a tree, raise `SyntaxError`, or raise some other exception. -/
inductive ParseAttempt where
  | ok (tree : AST)
  | syntaxError (e : SyntaxErrorExc)
  | otherError (msg : String)
deriving DecidableEq

/-- Oracle for the external Python parser `ast.parse`: a deterministic
function from the source string to the outcome of the call. -/
def PyParser : Type := String → ParseAttempt

/-- An arbitrary Python value handed to `parse`: either a `str` or any
non-string value (the code only ever asks `isinstance(code, str)`). -/
inductive PyVal where
  | str (s : String)
  | nonStr (repr : String)
deriving DecidableEq

/-- The diagnostic dictionary built by the code: keys `type`, `line`,
`column`, `message`, `severity`, `stage`. -/
structure Diagnostic where
  type : String
  line : Option Int
  column : Option Int
  message : String
  severity : String
  stage : String
deriving DecidableEq

/-- The result dictionary returned by `parse` (`_build_result`). -/
structure ParseResult where
  success : Bool
  ast_tree : Option AST
  syntax_errors : List Diagnostic
  parsing_time : Rat
deriving DecidableEq

/-- The mutable instance state of class `CodeParser` (field names as in the
source, including the misspelt `filenmae`). -/
structure CodeParser where
  filenmae : Option String
  source_code : Option PyVal
  ast_trees : Option AST
  syntax_errors : List Diagnostic
  parse_success : Bool
  parsing_time : Rat
deriving DecidableEq

/-- `CodeParser.__init__(filename)`. -/
def CodeParser.init (filename : Option String) : CodeParser :=
  { filenmae := filename
    source_code := none
    ast_trees := none
    syntax_errors := []
    parse_success := false
    parsing_time := 0 }

/-- `CodeParser._reset_state`. -/
def CodeParser._reset_state (self : CodeParser) : CodeParser :=
  { self with
    ast_trees := none
    syntax_errors := []
    parse_success := false
    parsing_time := 0 }

/-- The whitespace class of Python's `str.strip()` with no argument,
restricted to its ASCII members (space, tab, newline, carriage return,
vertical tab, form feed); the Unicode space characters it also strips play
no role here. -/
def pyWhitespace (c : Char) : Bool :=
  c = ' ' || c = '\t' || c = '\n' || c = '\r' || c = '\x0b' || c = '\x0c'

/-- Python's `code.strip()`: remove leading and trailing whitespace. -/
def pyStrip (s : String) : String :=
  String.mk
    (((s.data.dropWhile pyWhitespace).reverse.dropWhile pyWhitespace).reverse)

/-- `CodeParser._validate_input`: appends an `InputError` diagnostic and
returns `false` when the value is not a string or strips to empty;
otherwise returns `true` with no state change. -/
def CodeParser._validate_input (self : CodeParser) (code : PyVal) :
    CodeParser × Bool :=
  match code with
  | PyVal.nonStr _ =>
      ({ self with
          syntax_errors := self.syntax_errors ++
            [{ type := "InputError"
               line := none
               column := none
               message := "Source code must be a string"
               severity := "error"
               stage := "syntax" }] },
        false)
  | PyVal.str s =>
      if pyStrip s = "" then
        ({ self with
            syntax_errors := self.syntax_errors ++
              [{ type := "InputError"
                 line := none
                 column := none
                 message := "Source code must be a string"
                 severity := "error"
                 stage := "syntax" }] },
          false)
      else
        (self, true)

/-- `CodeParser._format_syntax_errors`: copies `lineno`, `offset` and
`msg` of the `SyntaxError` verbatim into a `ParseError` diagnostic. -/
def CodeParser._format_syntax_errors (exc : SyntaxErrorExc) : Diagnostic :=
  { type := "ParseError"
    line := exc.lineno
    column := exc.offset
    message := exc.msg
    severity := "error"
    stage := "syntax" }

/-- `CodeParser._safe_parse`: runs the parser oracle and classifies the
outcome exactly as the `try`/`except SyntaxError`/`except Exception`
blocks of the source do. -/
def CodeParser._safe_parse (env : PyParser) (self : CodeParser)
    (code : String) : CodeParser :=
  match env code with
  | ParseAttempt.ok tree =>
      { self with ast_trees := some tree, parse_success := true }
  | ParseAttempt.syntaxError e =>
      { self with
        parse_success := false
        syntax_errors := self.syntax_errors ++
          [CodeParser._format_syntax_errors e] }
  | ParseAttempt.otherError m =>
      { self with
        parse_success := false
        syntax_errors := self.syntax_errors ++
          [{ type := "ParseError"
             line := none
             column := none
             message := m
             severity := "error"
             stage := "syntax" }] }

/-- `CodeParser._build_result`. -/
def CodeParser._build_result (self : CodeParser) : ParseResult :=
  { success := self.parse_success
    ast_tree := self.ast_trees
    syntax_errors := self.syntax_errors
    parsing_time := self.parsing_time }

/-- `CodeParser.parse`: reset state, store the source, validate, parse if
valid, stamp the elapsed time and build the result. `t0` and `t1` are the
two `time.time()` readings. The `PyVal.nonStr` arm inside the valid branch
mirrors the fact that `_safe_parse` is only reached with a string; it is
unreachable because `_validate_input` returns `true` only for strings. -/
def CodeParser.parse (env : PyParser) (t0 t1 : Rat) (self : CodeParser)
    (code : PyVal) : CodeParser × ParseResult :=
  let s0 := CodeParser._reset_state self
  let s1 := { s0 with source_code := some code }
  let vres := CodeParser._validate_input s1 code
  if vres.2 = false then
    let s2 := { vres.1 with parsing_time := t1 - t0 }
    (s2, CodeParser._build_result s2)
  else
    let s2 :=
      match code with
      | PyVal.str s => CodeParser._safe_parse env vres.1 s
      | PyVal.nonStr _ => vres.1
    let s3 := { s2 with parsing_time := t1 - t0 }
    (s3, CodeParser._build_result s3)

/-- `CodeParser.has_syntax_errors`: `len(self.syntax_errors) > 0`. -/
def CodeParser.has_syntax_errors (self : CodeParser) : Bool :=
  decide (self.syntax_errors.length > 0)

/-- `CodeParser.get_ast`: the stored tree, gated on `parse_success`. -/
def CodeParser.get_ast (self : CodeParser) : Option AST :=
  if self.parse_success then self.ast_trees else none

/-- `CodeParser.get_errors`. -/
def CodeParser.get_errors (self : CodeParser) : List Diagnostic :=
  self.syntax_errors

/-! Concrete parser behaviors used by the witnesses below. -/

/-- Oracle on which every parse call succeeds with tree handle 0. -/
def envOk : PyParser := fun _ => ParseAttempt.ok { id := 0 }

/-- Oracle on which every parse call raises a well-formed `SyntaxError`
at line 1, column 5, as `ast.parse("def f(:")` does. -/
def envSyn : PyParser := fun _ =>
  ParseAttempt.syntaxError { lineno := some 1, offset := some 5, msg := "invalid syntax" }

/-- Oracle on which every parse call raises a non-`SyntaxError` exception,
as `ast.parse` does on a source string containing a null byte. -/
def envOther : PyParser := fun _ =>
  ParseAttempt.otherError "source code string cannot contain null bytes"

/-- C1: for every input value (string or not), every deterministic parser
behavior and every pair of clock readings, `parse` returns a result record
(the embedding is a total function: no exception crosses the boundary), and
on every failing path the failure has been converted into at least one
diagnostic in that record. -/
theorem parse_never_raises_and_captures_failures (env : PyParser)
    (t0 t1 : Rat) (p : CodeParser) (v : PyVal) :
    ∃ r : CodeParser × ParseResult, CodeParser.parse env t0 t1 p v = r ∧
      (r.2.success = false → r.2.syntax_errors ≠ []) := by
  refine ⟨_, rfl, ?_⟩
  cases v with
  | nonStr s =>
      simp [CodeParser.parse, CodeParser._reset_state, CodeParser._validate_input,
        CodeParser._build_result]
  | str s =>
      by_cases h : pyStrip s = "" <;>
        cases henv : env s <;>
          simp [CodeParser.parse, CodeParser._reset_state, CodeParser._validate_input,
            CodeParser._safe_parse, CodeParser._build_result,
            CodeParser._format_syntax_errors, h, henv]

/-- Witness for C1 at the concrete input `42` (a non-string). -/
theorem parse_never_raises_and_captures_failures_witness :
    ∃ r : CodeParser × ParseResult,
      CodeParser.parse envOk 0 1 (CodeParser.init none) (PyVal.nonStr "42") = r ∧
      (r.2.success = false → r.2.syntax_errors ≠ []) :=
  parse_never_raises_and_captures_failures envOk 0 1 (CodeParser.init none)
    (PyVal.nonStr "42")

/-- C2: for every input, the result of `parse` satisfies the success
invariant: `success = true` implies the diagnostics list is empty and the
tree is present; `success = false` implies at least one diagnostic and an
absent tree. The two implications on the Boolean `success` are mutually
exclusive and exhaustive. -/
theorem parse_result_invariant (env : PyParser) (t0 t1 : Rat)
    (p : CodeParser) (v : PyVal) :
    ((CodeParser.parse env t0 t1 p v).2.success = true →
      (CodeParser.parse env t0 t1 p v).2.syntax_errors = [] ∧
      ((CodeParser.parse env t0 t1 p v).2.ast_tree).isSome = true) ∧
    ((CodeParser.parse env t0 t1 p v).2.success = false →
      (CodeParser.parse env t0 t1 p v).2.syntax_errors ≠ [] ∧
      (CodeParser.parse env t0 t1 p v).2.ast_tree = none) := by
  cases v with
  | nonStr s =>
      simp [CodeParser.parse, CodeParser._reset_state, CodeParser._validate_input,
        CodeParser._build_result]
  | str s =>
      by_cases h : pyStrip s = "" <;>
        cases henv : env s <;>
          simp [CodeParser.parse, CodeParser._reset_state, CodeParser._validate_input,
            CodeParser._safe_parse, CodeParser._build_result,
            CodeParser._format_syntax_errors, h, henv]

/-- Witness for C2 at the concrete input `"x = 1 + 2"` under a succeeding
parser. -/
theorem parse_result_invariant_witness :
    ((CodeParser.parse envOk 0 1 (CodeParser.init none)
        (PyVal.str "x = 1 + 2")).2.success = true →
      (CodeParser.parse envOk 0 1 (CodeParser.init none)
        (PyVal.str "x = 1 + 2")).2.syntax_errors = [] ∧
      ((CodeParser.parse envOk 0 1 (CodeParser.init none)
        (PyVal.str "x = 1 + 2")).2.ast_tree).isSome = true) ∧
    ((CodeParser.parse envOk 0 1 (CodeParser.init none)
        (PyVal.str "x = 1 + 2")).2.success = false →
      (CodeParser.parse envOk 0 1 (CodeParser.init none)
        (PyVal.str "x = 1 + 2")).2.syntax_errors ≠ [] ∧
      (CodeParser.parse envOk 0 1 (CodeParser.init none)
        (PyVal.str "x = 1 + 2")).2.ast_tree = none) :=
  parse_result_invariant envOk 0 1 (CodeParser.init none) (PyVal.str "x = 1 + 2")

/-- C3: when the input is not a string, or is a string that strips to
empty, `parse` fails with exactly one `InputError` diagnostic whose line
and column are absent, the tree is absent, and no parse is attempted (the
result does not depend on the parser oracle at all). -/
theorem parse_rejects_invalid_input (env env2 : PyParser) (t0 t1 : Rat)
    (p : CodeParser) (v : PyVal)
    (h : (∀ s, v ≠ PyVal.str s) ∨ (∃ s, v = PyVal.str s ∧ pyStrip s = "")) :
    (CodeParser.parse env t0 t1 p v).2.success = false ∧
    (CodeParser.parse env t0 t1 p v).2.syntax_errors =
      [{ type := "InputError", line := none, column := none,
         message := "Source code must be a string",
         severity := "error", stage := "syntax" }] ∧
    (CodeParser.parse env t0 t1 p v).2.ast_tree = none ∧
    CodeParser.parse env t0 t1 p v = CodeParser.parse env2 t0 t1 p v := by
  cases v with
  | nonStr s =>
      simp [CodeParser.parse, CodeParser._reset_state, CodeParser._validate_input,
        CodeParser._build_result]
  | str s =>
      have htrim : pyStrip s = "" := by
        rcases h with h | ⟨s', hs', ht⟩
        · exact absurd rfl (h s)
        · cases hs'; exact ht
      simp [CodeParser.parse, CodeParser._reset_state, CodeParser._validate_input,
        CodeParser._build_result, htrim]

/-- Witness for C3 at the concrete whitespace-only input `"   "`, under two
distinct parser oracles. -/
theorem parse_rejects_invalid_input_witness :
    (CodeParser.parse envOk 0 1 (CodeParser.init none)
        (PyVal.str "   ")).2.success = false ∧
    (CodeParser.parse envOk 0 1 (CodeParser.init none)
        (PyVal.str "   ")).2.syntax_errors =
      [{ type := "InputError", line := none, column := none,
         message := "Source code must be a string",
         severity := "error", stage := "syntax" }] ∧
    (CodeParser.parse envOk 0 1 (CodeParser.init none)
        (PyVal.str "   ")).2.ast_tree = none ∧
    CodeParser.parse envOk 0 1 (CodeParser.init none) (PyVal.str "   ") =
      CodeParser.parse envSyn 0 1 (CodeParser.init none) (PyVal.str "   ") :=
  parse_rejects_invalid_input envOk envSyn 0 1 (CodeParser.init none)
    (PyVal.str "   ") (Or.inr ⟨"   ", rfl, by decide⟩)

/-- C4: on a string that passes validation, when the parser raises a
well-formed `SyntaxError` carrying a line, a column and a message, the
result fails with exactly one `ParseError` diagnostic whose line and
column are copied from the exception and whose message is copied
verbatim. -/
theorem parse_formats_syntax_error (env : PyParser) (t0 t1 : Rat)
    (p : CodeParser) (s : String) (e : SyntaxErrorExc) (l c : Int)
    (hs : pyStrip s ≠ "")
    (henv : env s = ParseAttempt.syntaxError e)
    (hl : e.lineno = some l) (hc : e.offset = some c) :
    (CodeParser.parse env t0 t1 p (PyVal.str s)).2.success = false ∧
    (CodeParser.parse env t0 t1 p (PyVal.str s)).2.syntax_errors =
      [{ type := "ParseError", line := some l, column := some c,
         message := e.msg, severity := "error", stage := "syntax" }] := by
  simp [CodeParser.parse, CodeParser._reset_state, CodeParser._validate_input,
    CodeParser._safe_parse, CodeParser._build_result,
    CodeParser._format_syntax_errors, hs, henv, hl, hc]

/-- Witness for C4 at the concrete input `"def f(:"` under a parser that
raises `SyntaxError` with line 1, column 5 and message `invalid syntax`. -/
theorem parse_formats_syntax_error_witness :
    (CodeParser.parse envSyn 0 1 (CodeParser.init none)
        (PyVal.str "def f(:")).2.success = false ∧
    (CodeParser.parse envSyn 0 1 (CodeParser.init none)
        (PyVal.str "def f(:")).2.syntax_errors =
      [{ type := "ParseError", line := some 1, column := some 5,
         message := "invalid syntax", severity := "error", stage := "syntax" }] :=
  parse_formats_syntax_error envSyn 0 1 (CodeParser.init none) "def f(:"
    { lineno := some 1, offset := some 5, msg := "invalid syntax" } 1 5
    (by decide) rfl rfl rfl

/-- C5: on a string that passes validation, when the parser raises any
failure other than a `SyntaxError`, the result fails with exactly one
`ParseError` diagnostic whose line and column are absent and whose message
is the failure's textual description. -/
theorem parse_captures_unexpected_failure (env : PyParser) (t0 t1 : Rat)
    (p : CodeParser) (s m : String)
    (hs : pyStrip s ≠ "")
    (henv : env s = ParseAttempt.otherError m) :
    (CodeParser.parse env t0 t1 p (PyVal.str s)).2.success = false ∧
    (CodeParser.parse env t0 t1 p (PyVal.str s)).2.syntax_errors =
      [{ type := "ParseError", line := none, column := none,
         message := m, severity := "error", stage := "syntax" }] := by
  simp [CodeParser.parse, CodeParser._reset_state, CodeParser._validate_input,
    CodeParser._safe_parse, CodeParser._build_result, hs, henv]

/-- Witness for C5 at the concrete input `"x = 1"` under a parser that
raises a `ValueError` about null bytes. -/
theorem parse_captures_unexpected_failure_witness :
    (CodeParser.parse envOther 0 1 (CodeParser.init none)
        (PyVal.str "x = 1")).2.success = false ∧
    (CodeParser.parse envOther 0 1 (CodeParser.init none)
        (PyVal.str "x = 1")).2.syntax_errors =
      [{ type := "ParseError", line := none, column := none,
         message := "source code string cannot contain null bytes",
         severity := "error", stage := "syntax" }] :=
  parse_captures_unexpected_failure envOther 0 1 (CodeParser.init none)
    "x = 1" "source code string cannot contain null bytes" (by decide) rfl

/-- C6: provided the external parser only raises well-formed syntax errors
(line and column present together or absent together, as CPython's
`ast.parse` guarantees), every diagnostic in the result of `parse`, and
equally every diagnostic `get_errors` reports on the resulting state, has
line and column either both present or both absent. -/
theorem diagnostics_line_column_paired (env : PyParser) (t0 t1 : Rat)
    (p : CodeParser) (v : PyVal)
    (hwf : ∀ s e, env s = ParseAttempt.syntaxError e →
      (e.lineno.isSome ↔ e.offset.isSome)) :
    (∀ d ∈ (CodeParser.parse env t0 t1 p v).2.syntax_errors,
      (d.line.isSome ↔ d.column.isSome)) ∧
    (∀ d ∈ CodeParser.get_errors (CodeParser.parse env t0 t1 p v).1,
      (d.line.isSome ↔ d.column.isSome)) := by
  cases v with
  | nonStr s =>
      simp [CodeParser.parse, CodeParser._reset_state, CodeParser._validate_input,
        CodeParser._build_result, CodeParser.get_errors]
  | str s =>
      by_cases h : pyStrip s = ""
      · simp [CodeParser.parse, CodeParser._reset_state, CodeParser._validate_input,
          CodeParser._build_result, CodeParser.get_errors, h]
      · cases henv : env s with
        | ok t =>
            simp [CodeParser.parse, CodeParser._reset_state,
              CodeParser._validate_input, CodeParser._safe_parse,
              CodeParser._build_result, CodeParser.get_errors, h, henv]
        | syntaxError e =>
            have he := hwf s e henv
            simp [CodeParser.parse, CodeParser._reset_state,
              CodeParser._validate_input, CodeParser._safe_parse,
              CodeParser._build_result, CodeParser._format_syntax_errors,
              CodeParser.get_errors, h, henv]
            simpa using he
        | otherError m =>
            simp [CodeParser.parse, CodeParser._reset_state,
              CodeParser._validate_input, CodeParser._safe_parse,
              CodeParser._build_result, CodeParser.get_errors, h, henv]

/-- Witness for C6 at the concrete input `"def f(:"` under the well-formed
syntax-error oracle. -/
theorem diagnostics_line_column_paired_witness :
    (∀ d ∈ (CodeParser.parse envSyn 0 1 (CodeParser.init none)
        (PyVal.str "def f(:")).2.syntax_errors,
      (d.line.isSome ↔ d.column.isSome)) ∧
    (∀ d ∈ CodeParser.get_errors (CodeParser.parse envSyn 0 1
        (CodeParser.init none) (PyVal.str "def f(:")).1,
      (d.line.isSome ↔ d.column.isSome)) :=
  diagnostics_line_column_paired envSyn 0 1 (CodeParser.init none)
    (PyVal.str "def f(:")
    (by intro s e h; simp [envSyn] at h; subst h; simp)

/-- C7: immediately after a `parse` call, `has_syntax_errors` on the
resulting state is true exactly when that call's diagnostics are
non-empty, and `get_ast` returns a value exactly when that call's
`success` is true; both accessors are functions of the state alone and
leave it unchanged. -/
theorem accessors_reflect_last_call (env : PyParser) (t0 t1 : Rat)
    (p : CodeParser) (v : PyVal) :
    (CodeParser.has_syntax_errors (CodeParser.parse env t0 t1 p v).1 = true ↔
      (CodeParser.parse env t0 t1 p v).2.syntax_errors ≠ []) ∧
    ((CodeParser.get_ast (CodeParser.parse env t0 t1 p v).1).isSome =
      (CodeParser.parse env t0 t1 p v).2.success) := by
  cases v with
  | nonStr s =>
      simp [CodeParser.parse, CodeParser._reset_state, CodeParser._validate_input,
        CodeParser._build_result, CodeParser.has_syntax_errors, CodeParser.get_ast]
  | str s =>
      by_cases h : pyStrip s = "" <;>
        cases henv : env s <;>
          simp [CodeParser.parse, CodeParser._reset_state, CodeParser._validate_input,
            CodeParser._safe_parse, CodeParser._build_result,
            CodeParser._format_syntax_errors, CodeParser.has_syntax_errors,
            CodeParser.get_ast, h, henv]

/-- Witness for C7 at the concrete input `"x = 1 + 2"` under a succeeding
parser. -/
theorem accessors_reflect_last_call_witness :
    (CodeParser.has_syntax_errors (CodeParser.parse envOk 0 1
        (CodeParser.init none) (PyVal.str "x = 1 + 2")).1 = true ↔
      (CodeParser.parse envOk 0 1 (CodeParser.init none)
        (PyVal.str "x = 1 + 2")).2.syntax_errors ≠ []) ∧
    ((CodeParser.get_ast (CodeParser.parse envOk 0 1 (CodeParser.init none)
        (PyVal.str "x = 1 + 2")).1).isSome =
      (CodeParser.parse envOk 0 1 (CodeParser.init none)
        (PyVal.str "x = 1 + 2")).2.success) :=
  accessors_reflect_last_call envOk 0 1 (CodeParser.init none)
    (PyVal.str "x = 1 + 2")

/-- C8: running `parse` a second time with the same input on the state
left by a first run gives a result that is structurally equal to the first
in every field except possibly `parsing_time` (the clock readings of the
two calls may differ); the reset at the start of each call makes the
result independent of prior state. -/
theorem parse_idempotent (env : PyParser) (t0 t1 t2 t3 : Rat)
    (p : CodeParser) (v : PyVal) :
    (CodeParser.parse env t2 t3 (CodeParser.parse env t0 t1 p v).1 v).2.success =
      (CodeParser.parse env t0 t1 p v).2.success ∧
    (CodeParser.parse env t2 t3 (CodeParser.parse env t0 t1 p v).1 v).2.ast_tree =
      (CodeParser.parse env t0 t1 p v).2.ast_tree ∧
    (CodeParser.parse env t2 t3 (CodeParser.parse env t0 t1 p v).1 v).2.syntax_errors =
      (CodeParser.parse env t0 t1 p v).2.syntax_errors := by
  cases v with
  | nonStr s =>
      simp [CodeParser.parse, CodeParser._reset_state, CodeParser._validate_input,
        CodeParser._build_result]
  | str s =>
      by_cases h : pyStrip s = "" <;>
        cases henv : env s <;>
          simp [CodeParser.parse, CodeParser._reset_state, CodeParser._validate_input,
            CodeParser._safe_parse, CodeParser._build_result,
            CodeParser._format_syntax_errors, h, henv]

/-- Witness for C8 at the concrete input `"def f(:"` under the
syntax-error oracle, with different clock readings on the two calls. -/
theorem parse_idempotent_witness :
    (CodeParser.parse envSyn 2 5 (CodeParser.parse envSyn 0 1
        (CodeParser.init none) (PyVal.str "def f(:")).1
        (PyVal.str "def f(:")).2.success =
      (CodeParser.parse envSyn 0 1 (CodeParser.init none)
        (PyVal.str "def f(:")).2.success ∧
    (CodeParser.parse envSyn 2 5 (CodeParser.parse envSyn 0 1
        (CodeParser.init none) (PyVal.str "def f(:")).1
        (PyVal.str "def f(:")).2.ast_tree =
      (CodeParser.parse envSyn 0 1 (CodeParser.init none)
        (PyVal.str "def f(:")).2.ast_tree ∧
    (CodeParser.parse envSyn 2 5 (CodeParser.parse envSyn 0 1
        (CodeParser.init none) (PyVal.str "def f(:")).1
        (PyVal.str "def f(:")).2.syntax_errors =
      (CodeParser.parse envSyn 0 1 (CodeParser.init none)
        (PyVal.str "def f(:")).2.syntax_errors :=
  parse_idempotent envSyn 0 1 2 5 (CodeParser.init none) (PyVal.str "def f(:")

/-- C9: for every input and every outcome, provided the end clock reading
is not earlier than the start reading (`time.time()` assumed monotone
across the call), the `parsing_time` of the result is non-negative. -/
theorem parsing_time_nonneg (env : PyParser) (t0 t1 : Rat)
    (p : CodeParser) (v : PyVal) (h : t0 ≤ t1) :
    0 ≤ (CodeParser.parse env t0 t1 p v).2.parsing_time := by
  cases v with
  | nonStr s =>
      simp [CodeParser.parse, CodeParser._reset_state, CodeParser._validate_input,
        CodeParser._build_result]
      linarith
  | str s =>
      by_cases hs : pyStrip s = "" <;>
        cases henv : env s <;>
          simp [CodeParser.parse, CodeParser._reset_state, CodeParser._validate_input,
            CodeParser._safe_parse, CodeParser._build_result,
            CodeParser._format_syntax_errors, hs, henv] <;>
          linarith

/-- Witness for C9 at the concrete input `42` with clock readings 0 and 1. -/
theorem parsing_time_nonneg_witness :
    0 ≤ (CodeParser.parse envOk 0 1 (CodeParser.init none)
      (PyVal.nonStr "42")).2.parsing_time :=
  parsing_time_nonneg envOk 0 1 (CodeParser.init none) (PyVal.nonStr "42")
    (by norm_num)

/-- C10: the constructor's filename argument (stored in the misspelt,
never-read attribute `filenmae`) has no observable effect: two instances
built with different filenames give results of `parse` on the same input
that agree on every field except possibly `parsing_time`, and all
accessors on the resulting states agree. -/
theorem filename_has_no_observable_effect (env : PyParser)
    (t0 t1 t2 t3 : Rat) (f1 f2 : Option String) (v : PyVal) :
    (CodeParser.parse env t0 t1 (CodeParser.init f1) v).2.success =
      (CodeParser.parse env t2 t3 (CodeParser.init f2) v).2.success ∧
    (CodeParser.parse env t0 t1 (CodeParser.init f1) v).2.ast_tree =
      (CodeParser.parse env t2 t3 (CodeParser.init f2) v).2.ast_tree ∧
    (CodeParser.parse env t0 t1 (CodeParser.init f1) v).2.syntax_errors =
      (CodeParser.parse env t2 t3 (CodeParser.init f2) v).2.syntax_errors ∧
    CodeParser.has_syntax_errors (CodeParser.parse env t0 t1 (CodeParser.init f1) v).1 =
      CodeParser.has_syntax_errors (CodeParser.parse env t2 t3 (CodeParser.init f2) v).1 ∧
    CodeParser.get_ast (CodeParser.parse env t0 t1 (CodeParser.init f1) v).1 =
      CodeParser.get_ast (CodeParser.parse env t2 t3 (CodeParser.init f2) v).1 ∧
    CodeParser.get_errors (CodeParser.parse env t0 t1 (CodeParser.init f1) v).1 =
      CodeParser.get_errors (CodeParser.parse env t2 t3 (CodeParser.init f2) v).1 := by
  cases v with
  | nonStr s =>
      simp [CodeParser.parse, CodeParser._reset_state, CodeParser._validate_input,
        CodeParser._build_result, CodeParser.init, CodeParser.has_syntax_errors,
        CodeParser.get_ast, CodeParser.get_errors]
  | str s =>
      by_cases h : pyStrip s = "" <;>
        cases henv : env s <;>
          simp [CodeParser.parse, CodeParser._reset_state, CodeParser._validate_input,
            CodeParser._safe_parse, CodeParser._build_result,
            CodeParser._format_syntax_errors, CodeParser.init,
            CodeParser.has_syntax_errors, CodeParser.get_ast,
            CodeParser.get_errors, h, henv]

/-- Witness for C10 at the concrete input `"x = 1 + 2"` with filenames
`a.py` and `b.py`. -/
theorem filename_has_no_observable_effect_witness :
    (CodeParser.parse envOk 0 1 (CodeParser.init (some "a.py"))
        (PyVal.str "x = 1 + 2")).2.success =
      (CodeParser.parse envOk 2 5 (CodeParser.init (some "b.py"))
        (PyVal.str "x = 1 + 2")).2.success ∧
    (CodeParser.parse envOk 0 1 (CodeParser.init (some "a.py"))
        (PyVal.str "x = 1 + 2")).2.ast_tree =
      (CodeParser.parse envOk 2 5 (CodeParser.init (some "b.py"))
        (PyVal.str "x = 1 + 2")).2.ast_tree ∧
    (CodeParser.parse envOk 0 1 (CodeParser.init (some "a.py"))
        (PyVal.str "x = 1 + 2")).2.syntax_errors =
      (CodeParser.parse envOk 2 5 (CodeParser.init (some "b.py"))
        (PyVal.str "x = 1 + 2")).2.syntax_errors ∧
    CodeParser.has_syntax_errors (CodeParser.parse envOk 0 1
        (CodeParser.init (some "a.py")) (PyVal.str "x = 1 + 2")).1 =
      CodeParser.has_syntax_errors (CodeParser.parse envOk 2 5
        (CodeParser.init (some "b.py")) (PyVal.str "x = 1 + 2")).1 ∧
    CodeParser.get_ast (CodeParser.parse envOk 0 1
        (CodeParser.init (some "a.py")) (PyVal.str "x = 1 + 2")).1 =
      CodeParser.get_ast (CodeParser.parse envOk 2 5
        (CodeParser.init (some "b.py")) (PyVal.str "x = 1 + 2")).1 ∧
    CodeParser.get_errors (CodeParser.parse envOk 0 1
        (CodeParser.init (some "a.py")) (PyVal.str "x = 1 + 2")).1 =
      CodeParser.get_errors (CodeParser.parse envOk 2 5
        (CodeParser.init (some "b.py")) (PyVal.str "x = 1 + 2")).1 :=
  filename_has_no_observable_effect envOk 0 1 2 5 (some "a.py") (some "b.py")
    (PyVal.str "x = 1 + 2")
